import Mathlib

/-
  Verification of the cache / lock / scheduler core of the cc-status
  repository against its design document.

  Timestamps and durations are rationals (seconds).  Filesystem state is
  passed explicitly: each embedded operation takes the relevant file
  contents and returns its result together with the resulting contents.
-/

namespace CcStatus

/-- A parsed cache record, the JSON object written by CacheManager.set
with fields data, cached_at and ttl.  The payload is modelled as an
optional natural number (None stands for a stored JSON null or a missing
data field). -/
structure CacheRecord where
  data : Option Nat
  cached_at : ℚ
  ttl : ℚ
  deriving DecidableEq, Repr

/-- On-disk contents of a cache file.  badJson is text that is valid UTF-8
but fails json.load with a JSONDecodeError (swallowed by safe_json_read);
badEncoding is contents on which processing raises an exception that
escapes safe_json_read (for example a UnicodeDecodeError, which is not
among the caught exception classes; a file parsing to a non-object value
behaves the same way at both call sites, raising at attribute access). -/
inductive CacheFile where
  | record (r : CacheRecord)
  | badJson
  | badEncoding
  deriving DecidableEq, Repr

/-- The fixed default cache TTL of CacheManager: 300 seconds. -/
def CacheManager.default_ttl : ℚ := 300

/-- Python truthiness of the optional ttl argument, as in the source
expression combining the argument with the default: None and 0 both fall
back to the default. -/
def effectiveTTL (ttl : Option ℚ) : ℚ :=
  match ttl with
  | none => CacheManager.default_ttl
  | some t => if t = 0 then CacheManager.default_ttl else t

/-- safe_json_read on a cache file: a missing file or a JSON-decode
failure yields the default None; contents whose processing raises outside
the caught exception classes make the read raise. -/
def safe_json_read : Option CacheFile → Except Unit (Option CacheRecord)
  | none => .ok none
  | some (.record r) => .ok (some r)
  | some .badJson => .ok none
  | some .badEncoding => .error ()

/-- CacheManager.get: read the record through safe_json_read; a falsy read
result returns None; when now - cached_at exceeds the effective ttl
(the ttl argument or the 300 s default; the stored per-entry ttl field is
not consulted) the file is deleted and None returned; an exception raised
anywhere is caught by the surrounding handler, which returns None leaving
the file in place.  Returns the value and the resulting file state. -/
def CacheManager.get (file : Option CacheFile) (now : ℚ) (ttl : Option ℚ) :
    Option Nat × Option CacheFile :=
  match safe_json_read file with
  | .error _ => (none, file)
  | .ok none => (none, file)
  | .ok (some r) =>
      if now - r.cached_at > effectiveTTL ttl then (none, none)
      else (r.data, file)

/-- Outcome of the filesystem operations inside safe_json_write. -/
inductive WriteOutcome where
  | ok
  | ioError
  | otherError
  deriving DecidableEq, Repr

/-- safe_json_write: True on success; a caught IOError or TimeoutError is
reported as False; any other exception (for example an unserialisable
payload) propagates to the caller. -/
def safe_json_write : WriteOutcome → Except Unit Bool
  | .ok => .ok true
  | .ioError => .ok false
  | .otherError => .error ()

/-- CacheManager.set: build the record with cached_at = now and the
effective ttl, hand it to safe_json_write, and convert any raised
exception into a False return via the surrounding handler.  Returns the
success flag together with the record a successful write stores. -/
def CacheManager.set (now : ℚ) (d : Option Nat) (ttl : Option ℚ)
    (o : WriteOutcome) : Bool × CacheRecord :=
  (match safe_json_write o with
   | .ok b => b
   | .error _ => false,
   ⟨d, now, effectiveTTL ttl⟩)

/-- The two filesystem steps of safe_json_write, as seen at the target
path: step one writes the temporary file (the target is untouched), step
two atomically renames the temporary file over the target.  setTarget old
r k is the target contents after the first k steps, for every
interruption point k of the writer; the temporary file is invisible to
readers of the target path. -/
def setTarget (old : Option CacheFile) (r : CacheRecord) :
    Fin 3 → Option CacheFile
  | 0 => old
  | 1 => old
  | 2 => some (.record r)

/-- One iteration of the scan in CacheManager.cleanup_expired on a single
file: a parsed record older than its own stored ttl is deleted and
counted; a read returning None falls through the truthiness test and the
file is kept; a read that raises lands in the handler that deletes the
file and counts it.  Returns the resulting file state and the count
contribution. -/
def cleanupStep (now : ℚ) (f : CacheFile) : Option CacheFile × Nat :=
  match safe_json_read (some f) with
  | .ok (some r) =>
      if now - r.cached_at > r.ttl then (none, 1) else (some f, 0)
  | .ok none => (some f, 0)
  | .error _ => (none, 1)

/-- CacheManager.cleanup_expired over the list of cache files in the
cache directory: applies cleanupStep to every file, returning the number
of files removed and the surviving files. -/
def CacheManager.cleanup_expired (now : ℚ) (files : List CacheFile) :
    Nat × List CacheFile :=
  files.foldr
    (fun f acc =>
      let s := cleanupStep now f
      (s.2 + acc.1, match s.1 with | none => acc.2 | some g => g :: acc.2))
    (0, [])

/-- The JSON object written to a lock file by APILock: pid, thread_id and
created_at (hostname omitted, it takes no part in any decision). -/
structure LockRecord where
  pid : Nat
  thread_id : Nat
  created_at : ℚ
  deriving DecidableEq, Repr

/-- On-disk contents of a lock file: a parsed record, or contents on which
json.load or the created_at parse raises (also covering a missing
created_at field, which the expiry check treats the same way). -/
inductive LockFileContent where
  | record (r : LockRecord)
  | corrupt
  deriving DecidableEq, Repr

/-- The default lock timeout of APILock: 60 seconds, doubling as the lock
TTL in the expiry check. -/
def APILock.default_timeout : ℚ := 60

/-- The default polling interval of APILock: 100 milliseconds. -/
def APILock.default_wait_interval : ℚ := 1/10

/-- APILock._is_lock_expired: a missing file or unreadable contents count
as expired; otherwise expired iff now - created_at > default_timeout. -/
def APILock.is_lock_expired (f : Option LockFileContent) (now : ℚ) : Bool :=
  match f with
  | none => true
  | some .corrupt => true
  | some (.record r) => decide (now - r.created_at > APILock.default_timeout)

/-- APILock._try_acquire_file_lock: an existing non-expired lock file
makes the attempt fail; an expired file is deleted first; the caller then
writes its own record (pid, thread id, created_at = now) and succeeds.
Returns the acquired flag and the resulting file state. -/
def APILock.try_acquire_file_lock (pid tid : Nat)
    (f : Option LockFileContent) (now : ℚ) :
    Bool × Option LockFileContent :=
  match f with
  | some c =>
      if APILock.is_lock_expired (some c) now then
        (true, some (.record ⟨pid, tid, now⟩))
      else (false, some c)
  | none => (true, some (.record ⟨pid, tid, now⟩))

/-- Number of polling attempts the acquire loop performs: attempts happen
at elapsed times 0, interval, 2 * interval, and so on, while the elapsed
time is below timeout. -/
def APILock.attemptCount (timeout interval : ℚ) : Nat :=
  (⌈timeout / interval⌉ : ℤ).toNat

/-- The polling loop of APILock.acquire_lock, one unit of fuel per
attempt; after a failed attempt the loop sleeps wait_interval and
retries.  No other actor touches the file during the loop in this
single-caller model. -/
def APILock.acquireLoop (pid tid : Nat) (interval : ℚ) :
    Nat → ℚ → Option LockFileContent → Bool × Option LockFileContent
  | 0, _, f => (false, f)
  | n + 1, now, f =>
      match APILock.try_acquire_file_lock pid tid f now with
      | (true, f2) => (true, f2)
      | (false, f2) => APILock.acquireLoop pid tid interval n (now + interval) f2

/-- APILock.acquire_lock with explicit start time and file state: polls
try_acquire_file_lock while the elapsed time is below timeout, returning
False once the budget is exhausted. -/
def APILock.acquire_lock (pid tid : Nat) (timeout interval start : ℚ)
    (f : Option LockFileContent) : Bool × Option LockFileContent :=
  APILock.acquireLoop pid tid interval
    (APILock.attemptCount timeout interval) start f

/-- APILock.is_locked: true only for a live (present, non-expired)
record; an expired record it encounters is deleted on the way. -/
def APILock.is_locked (f : Option LockFileContent) (now : ℚ) :
    Bool × Option LockFileContent :=
  match f with
  | none => (false, none)
  | some c =>
      if APILock.is_lock_expired (some c) now then (false, none)
      else (true, some c)

/-- APILock._is_lock_owner: a missing lock file counts as owned by the
caller; unreadable contents count as not owned; otherwise the stored pid
and thread id must both equal the callers. -/
def APILock.is_lock_owner (pid tid : Nat) (f : Option LockFileContent) : Bool :=
  match f with
  | none => true
  | some .corrupt => false
  | some (.record r) => r.pid == pid && r.thread_id == tid

/-- APILock.release_lock: delete the lock file only when the caller owns
it, returning whether the release happened; a refused release leaves the
file as it is. -/
def APILock.release_lock (pid tid : Nat) (f : Option LockFileContent) :
    Bool × Option LockFileContent :=
  if APILock.is_lock_owner pid tid f then (true, none)
  else (false, f)

/-- Program counter of one thread inside _try_acquire_file_lock, with the
existence check and the file creation as two separately scheduled steps:
the source performs them as distinct filesystem operations, and the
in-memory lock table is only written to after the creation succeeds,
never acquired, so nothing serializes the two steps of concurrent
same-process threads. -/
inductive AcqPC where
  | beforeCheck
  | beforeCreate
  | finished (acquired : Bool)
  deriving DecidableEq, Repr

/-- Shared state of two same-process threads racing through
_try_acquire_file_lock on the same lock key. -/
structure RaceState where
  pc0 : AcqPC
  pc1 : AcqPC
  file : Option LockFileContent
  deriving DecidableEq, Repr

/-- One step of a single thread: the check step observes the file
(deleting an expired record) and either fails or proceeds to create; the
create step unconditionally writes the record of the acting thread and
reports success. -/
def acqStep (pid tid : Nat) (now : ℚ) :
    AcqPC → Option LockFileContent → AcqPC × Option LockFileContent
  | .beforeCheck, f =>
      match f with
      | some c =>
          if APILock.is_lock_expired (some c) now then (.beforeCreate, none)
          else (.finished false, some c)
      | none => (.beforeCreate, none)
  | .beforeCreate, _ => (.finished true, some (.record ⟨pid, tid, now⟩))
  | .finished b, f => (.finished b, f)

/-- One scheduler step: the chosen thread advances by one acqStep (a
finished thread stays put). -/
def raceStep (pid tid0 tid1 : Nat) (now : ℚ) (i : Fin 2) (s : RaceState) :
    RaceState :=
  match i with
  | 0 =>
      let t := acqStep pid tid0 now s.pc0 s.file
      { s with pc0 := t.1, file := t.2 }
  | 1 =>
      let t := acqStep pid tid1 now s.pc1 s.file
      { s with pc1 := t.1, file := t.2 }

/-- Run a schedule of interleaved steps of the two racing threads. -/
def runRace (pid tid0 tid1 : Nat) (now : ℚ) (sched : List (Fin 2))
    (s : RaceState) : RaceState :=
  sched.foldl (fun s i => raceStep pid tid0 tid1 now i s) s

/-- The cooldown constant of update_usage: 30 minutes. -/
def COOLDOWN_MINUTES : ℚ := 30

/-- On-disk state touched by UsageUpdater for the daily usage key: the
cooldown lock file (holding the timestamp written at creation) and the
usage cache file together with its modification time (meaningful only
while the cache file exists; the file is rewritten and its mtime reset on
every successful refresh). -/
structure UsageState where
  lockFile : Option ℚ
  cacheFile : Option CacheFile
  cacheMtime : ℚ
  deriving DecidableEq, Repr

/-- UsageUpdater.is_lock_valid: the lock file must exist, parse, and be
no more than COOLDOWN_MINUTES old. -/
def UsageUpdater.is_lock_valid (s : UsageState) (now : ℚ) : Bool :=
  match s.lockFile with
  | none => false
  | some t => decide (now - t ≤ COOLDOWN_MINUTES * 60)

/-- UsageUpdater.is_cooldown_active: reads the daily cache through
CacheManager.get with no ttl argument, so the 300 s default applies and
an expired file is deleted by the read; only when the read returns a
truthy value (the usage payload is a non-empty dictionary) is the file
mtime age compared against the 30-minute cooldown.  Returns the flag and
the state, since the read may have deleted the cache file. -/
def UsageUpdater.is_cooldown_active (s : UsageState) (now : ℚ) :
    Bool × UsageState :=
  let g := CacheManager.get s.cacheFile now none
  let s2 : UsageState := { s with cacheFile := g.2 }
  match g.1 with
  | some _ =>
      match s2.cacheFile with
      | some _ =>
          if now - s2.cacheMtime < COOLDOWN_MINUTES * 60 then (true, s2)
          else (false, s2)
      | none => (false, s2)
  | none => (false, s2)

/-- One run of UsageUpdater.update_usage with force = False, assuming the
lock file writes succeed: return False without fetching while the lock
file is valid; return True without fetching while the cooldown is active;
otherwise create the lock, perform the external fetch, on success write
the cache with the default ttl, and remove the lock on every exit path.
fetch is the payload the external fetch would produce.  Returns the
return value, whether the fetch ran, and the resulting state. -/
def UsageUpdater.update_usage (s : UsageState) (now : ℚ)
    (fetch : Option Nat) : Bool × Bool × UsageState :=
  if UsageUpdater.is_lock_valid s now then (false, false, s)
  else
    let c := UsageUpdater.is_cooldown_active s now
    if c.1 then (true, false, c.2)
    else
      match fetch with
      | some d =>
          (true, true,
            { cacheFile := some (.record ⟨some d, now, 300⟩)
              cacheMtime := now
              lockFile := none })
      | none => (false, true, { c.2 with lockFile := none })

/-- The daemon singleton state of BackgroundTaskManager: the pid file and
the in-process running flag (the task threads are modelled separately). -/
structure DaemonState where
  pidFile : Option Nat
  running : Bool
  deriving DecidableEq, Repr

/-- BackgroundTaskManager.is_running: the pid file must exist and its
stored pid answer the OS liveness probe. -/
def BackgroundTaskManager.is_running (alive : Nat → Bool)
    (s : DaemonState) : Bool :=
  match s.pidFile with
  | none => false
  | some pid => alive pid

/-- BackgroundTaskManager.start: refuse when a live daemon handle exists;
otherwise write the own pid into the handle file, set the running flag,
launch the task threads and report success. -/
def BackgroundTaskManager.start (alive : Nat → Bool) (selfPid : Nat)
    (s : DaemonState) : Bool × DaemonState :=
  if BackgroundTaskManager.is_running alive s then (false, s)
  else (true, { pidFile := some selfPid, running := true })

/-- BackgroundTaskManager.stop: when running, clear the flag, join the
threads and delete the pid file; when not running, do nothing. -/
def BackgroundTaskManager.stop (s : DaemonState) : DaemonState :=
  if s.running then { pidFile := none, running := false } else s

/-- The per-task entry of the shared last_status dictionary written by
one iteration of BackgroundTaskManager._run_task.  The iteration index of
the writing loop stands in for the wall-clock timestamp of last_run. -/
structure TaskStatus where
  last_run : Nat
  execution_time : ℚ
  success : Bool
  error : Option String
  deriving DecidableEq, Repr

/-- Result of one execution of a task body: a normal return taking the
given duration, or a raised exception carrying its message. -/
inductive TaskOutcome where
  | ok (duration : ℚ)
  | exn (msg : String)
  deriving DecidableEq, Repr

/-- One iteration of _run_task at iteration index i: a normal return is
recorded with success true; an exception is caught right there and
recorded with success false and the error string, so the loop always
reaches its sleep and the next iteration. -/
def BackgroundTaskManager.run_task_iter (i : Nat) :
    TaskOutcome → TaskStatus
  | .ok d => ⟨i, d, true, none⟩
  | .exn m => ⟨i, 0, false, some m⟩

/-- Joint state of two task loops sharing the last_status dictionary:
each slot holds the status entry of one task, and each counter the number
of iterations that loop has completed. -/
structure TwoTaskState where
  st0 : Option TaskStatus
  st1 : Option TaskStatus
  done0 : Nat
  done1 : Nat
  deriving DecidableEq, Repr

/-- One scheduler step: the chosen task loop performs its next iteration,
recording the outcome in its own slot of the shared dictionary (each loop
writes only its own key). -/
def BackgroundTaskManager.sysStep (body0 body1 : Nat → TaskOutcome)
    (i : Fin 2) (s : TwoTaskState) : TwoTaskState :=
  match i with
  | 0 =>
      { s with
        st0 := some (BackgroundTaskManager.run_task_iter s.done0 (body0 s.done0))
        done0 := s.done0 + 1 }
  | 1 =>
      { s with
        st1 := some (BackgroundTaskManager.run_task_iter s.done1 (body1 s.done1))
        done1 := s.done1 + 1 }

/-- Run an interleaving of the two task loops. -/
def BackgroundTaskManager.runSched (body0 body1 : Nat → TaskOutcome)
    (sched : List (Fin 2)) (s : TwoTaskState) : TwoTaskState :=
  sched.foldl (fun s i => BackgroundTaskManager.sysStep body0 body1 i s) s

/-- Claim C1, counterexample: an entry stored with per-entry ttl 1 and
age 1.1 s is still returned by get with no ttl override, and its backing
record is not deleted, although its age exceeds the per-entry ttl stored
at set time — so get does not honour the stored per-entry ttl as the
claim states. -/
theorem c1_counterexample :
    ((11 : ℚ)/10 - (CacheRecord.mk (some 7) 0 1).cached_at >
        (CacheRecord.mk (some 7) 0 1).ttl) ∧
    (CacheManager.get (some (.record (CacheRecord.mk (some 7) 0 1)))
        (11/10) none).1 = some 7 ∧
    (CacheManager.get (some (.record (CacheRecord.mk (some 7) 0 1)))
        (11/10) none).2 = some (.record (CacheRecord.mk (some 7) 0 1)) := by
  refine ⟨by norm_num, ?_, ?_⟩ <;>
    simp [CacheManager.get, safe_json_read, effectiveTTL,
      CacheManager.default_ttl] <;> norm_num

/-- Claim C1, amended: with no ttl override, get returns absent iff there
is no entry or now - cached_at > 300 (the fixed default ttl); the stored
per-entry ttl is ignored by get (only the sweep consults it); on expiry
against that default the backing record is deleted, and otherwise the
record and its value are returned unchanged. -/
theorem c1_get_uses_default_ttl (v : Nat) (c t now : ℚ) :
    ((CacheManager.get (some (.record ⟨some v, c, t⟩)) now none).1 = none ↔
        now - c > 300) ∧
    (now - c > 300 →
        CacheManager.get (some (.record ⟨some v, c, t⟩)) now none =
          (none, none)) ∧
    (¬ now - c > 300 →
        CacheManager.get (some (.record ⟨some v, c, t⟩)) now none =
          (some v, some (.record ⟨some v, c, t⟩))) ∧
    CacheManager.get none now none = (none, none) := by
  by_cases h : now - c > 300 <;>
    simp [CacheManager.get, safe_json_read, effectiveTTL,
      CacheManager.default_ttl, h]

/-- Claim C1, witness: the amended theorem evaluated at a concrete
expired entry. -/
theorem c1_witness :
    (400 : ℚ) - 0 > 300 ∧
    CacheManager.get (some (.record ⟨some 7, 0, 1⟩)) 400 none =
      (none, none) :=
  ⟨by norm_num, (c1_get_uses_default_ttl 7 0 1 400).2.1 (by norm_num)⟩

/-- Claim C4: a cache file that fails to parse as JSON is kept by
cleanup_expired and not counted — safe_json_read swallows the decode
error and returns the default None, so the truthiness test skips the file
and the delete-on-unreadable handler never runs for it; the claim (and
the comment in the source) say such a file is deleted and counted. -/
theorem c4_corrupt_file_kept :
    CacheManager.cleanup_expired 1000000 [.badJson] = (0, [.badJson]) := rfl

/-- Claim C7: the target path of a cache set holds either the old
contents or the complete new record at every interruption point of the
writer (temporary write then atomic rename), and set converts every
write failure, a raised exception included, into a False return. -/
theorem c7_atomic_set (old : Option CacheFile) (r : CacheRecord)
    (k : Fin 3) (now : ℚ) (d : Option Nat) (ttl : Option ℚ)
    (o : WriteOutcome) :
    (setTarget old r k = old ∨ setTarget old r k = some (.record r)) ∧
    (o ≠ .ok → (CacheManager.set now d ttl o).1 = false) ∧
    ((CacheManager.set now d ttl o).1 = true ↔ o = .ok) ∧
    (CacheManager.set now d ttl o).2 = ⟨d, now, effectiveTTL ttl⟩ := by
  refine ⟨?_, ?_, ?_, rfl⟩
  · fin_cases k <;> simp [setTarget]
  · cases o <;> simp [CacheManager.set, safe_json_write]
  · cases o <;> simp [CacheManager.set, safe_json_write]

/-- Claim C7, witness: the atomicity and failure-reporting statement
evaluated at the interruption point after the temporary write, with an
io failure. -/
theorem c7_witness :
    (setTarget none ⟨some 1, 0, 300⟩ 1 = none ∨
        setTarget none ⟨some 1, 0, 300⟩ 1 =
          some (.record ⟨some 1, 0, 300⟩)) ∧
    (WriteOutcome.ioError ≠ WriteOutcome.ok →
        (CacheManager.set 0 (some 1) none .ioError).1 = false) ∧
    ((CacheManager.set 0 (some 1) none .ioError).1 = true ↔
        WriteOutcome.ioError = WriteOutcome.ok) ∧
    (CacheManager.set 0 (some 1) none .ioError).2 =
      ⟨some 1, 0, effectiveTTL none⟩ :=
  c7_atomic_set none ⟨some 1, 0, 300⟩ 1 0 (some 1) none .ioError

/-- Helper: while a record stays within the lock TTL through every
attempt time, the acquire loop fails every attempt and leaves the record
in place. -/
theorem APILock.acquireLoop_live_fail (pid tid : Nat) (interval : ℚ)
    (r : LockRecord) (hi : 0 ≤ interval) :
    ∀ (n : Nat) (now : ℚ),
      now + n * interval - r.created_at ≤ APILock.default_timeout →
      APILock.acquireLoop pid tid interval n now (some (.record r)) =
        (false, some (.record r)) := by
  intro n
  induction n with
  | zero => intro now _; rfl
  | succ k ih =>
      intro now h
      have hk : (0 : ℚ) ≤ k * interval := by positivity
      have hlive : ¬ now - r.created_at > APILock.default_timeout := by
        push_cast at h; nlinarith
      have htry : APILock.try_acquire_file_lock pid tid
          (some (.record r)) now = (false, some (.record r)) := by
        simp [APILock.try_acquire_file_lock, APILock.is_lock_expired, hlive]
      have hrec : (now + interval) + k * interval - r.created_at ≤
          APILock.default_timeout := by push_cast at h ⊢; linarith
      simp [APILock.acquireLoop, htry, ih (now + interval) hrec]

/-- Claim C5: a single polling attempt claims the lock exactly when no
live record exists; a record aged at least twice the lock TTL is deleted
and the claim succeeds immediately (within the first polling interval),
installing the callers record; and when a record stays live through every
attempt, acquire_lock returns False once the timeout budget of attempts
is exhausted. -/
theorem c5_acquire_lock (pid tid : Nat) (timeout interval start : ℚ)
    (f : Option LockFileContent) (stale live : LockRecord)
    (ht : 0 < timeout) (hi : 0 < interval)
    (hstale : start - stale.created_at ≥ 2 * APILock.default_timeout)
    (hlive : start + (APILock.attemptCount timeout interval : ℚ) * interval
        - live.created_at ≤ APILock.default_timeout) :
    ((APILock.try_acquire_file_lock pid tid f start).1 =
        ! (APILock.is_locked f start).1) ∧
    APILock.acquire_lock pid tid timeout interval start
        (some (.record stale)) =
      (true, some (.record ⟨pid, tid, start⟩)) ∧
    (APILock.acquire_lock pid tid timeout interval start
        (some (.record live))).1 = false := by
  have hcount : 1 ≤ APILock.attemptCount timeout interval := by
    have hq : 0 < timeout / interval := div_pos ht hi
    have hceil : (1 : ℤ) ≤ ⌈timeout / interval⌉ := by
      exact_mod_cast Int.ceil_pos.mpr hq
    unfold APILock.attemptCount
    omega
  refine ⟨?_, ?_, ?_⟩
  · cases f with
    | none => simp [APILock.try_acquire_file_lock, APILock.is_locked]
    | some c =>
        by_cases h : APILock.is_lock_expired (some c) start = true <;>
          simp [APILock.try_acquire_file_lock, APILock.is_locked, h]
  · obtain ⟨n, hn⟩ : ∃ n, APILock.attemptCount timeout interval = n + 1 :=
      ⟨APILock.attemptCount timeout interval - 1, by omega⟩
    have hexp : APILock.is_lock_expired (some (.record stale)) start = true := by
      have : start - stale.created_at > APILock.default_timeout := by
        unfold APILock.default_timeout at hstale ⊢; linarith
      simp [APILock.is_lock_expired, this]
    unfold APILock.acquire_lock
    rw [hn]
    simp [APILock.acquireLoop, APILock.try_acquire_file_lock, hexp]
  · unfold APILock.acquire_lock
    rw [APILock.acquireLoop_live_fail pid tid interval live (le_of_lt hi)
      (APILock.attemptCount timeout interval) start hlive]

/-- Claim C5, witness: acquire evaluated with a half-second timeout and
the default 100 ms polling interval, against an empty directory, a record
120 s old (twice the TTL) and a record 1 s old. -/
theorem c5_witness :
    ((APILock.try_acquire_file_lock 1 2 none 1000).1 =
        ! (APILock.is_locked none 1000).1) ∧
    APILock.acquire_lock 1 2 (1/2) (1/10) 1000
        (some (.record ⟨9, 9, 880⟩)) =
      (true, some (.record ⟨1, 2, 1000⟩)) ∧
    (APILock.acquire_lock 1 2 (1/2) (1/10) 1000
        (some (.record ⟨8, 8, 999⟩))).1 = false :=
  c5_acquire_lock 1 2 (1/2) (1/10) 1000 none ⟨9, 9, 880⟩ ⟨8, 8, 999⟩
    (by norm_num) (by norm_num)
    (by unfold APILock.default_timeout; norm_num)
    (by
      have : APILock.attemptCount (1/2) (1/10) = 5 := by
        unfold APILock.attemptCount
        norm_num
        rfl
      rw [this]; unfold APILock.default_timeout; norm_num)

/-- Claim C6: a release attempted against a lock record held by a
different process or thread identity is refused — release_lock returns
False and the record on disk is unchanged. -/
theorem c6_release_refused (pid tid : Nat) (r : LockRecord)
    (h : r.pid ≠ pid ∨ r.thread_id ≠ tid) :
    APILock.release_lock pid tid (some (.record r)) =
      (false, some (.record r)) := by
  have hown : APILock.is_lock_owner pid tid (some (.record r)) = false := by
    rcases h with h | h <;> simp [APILock.is_lock_owner, h]
  simp [APILock.release_lock, hown]

/-- Claim C6, witness: a record held by pid 2 is not released by pid 1
on the same thread id. -/
theorem c6_witness :
    APILock.release_lock 1 5 (some (.record ⟨2, 5, 0⟩)) =
      (false, some (.record ⟨2, 5, 0⟩)) :=
  c6_release_refused 1 5 ⟨2, 5, 0⟩ (Or.inl (by decide))

/-- Claim C10: when no lock file exists, release_lock treats the caller
as the owner and returns True (the missing-file branch of the ownership
check answers True), rather than refusing or reporting an error. -/
theorem c10_release_missing_file (pid tid : Nat) :
    APILock.release_lock pid tid none = (true, none) := rfl

/-- Claim C3, counterexample: from an empty lock directory, the
interleaving check0, check1, create0, create1 of two same-process threads
leaves both with acquired = true — both succeed immediately, because no
in-memory mutex separates the existence check from the file creation;
the claim says exactly one of them can succeed immediately. -/
theorem c3_counterexample :
    (runRace 42 1 2 0 [0, 1, 0, 1]
        ⟨.beforeCheck, .beforeCheck, none⟩).pc0 = .finished true ∧
    (runRace 42 1 2 0 [0, 1, 0, 1]
        ⟨.beforeCheck, .beforeCheck, none⟩).pc1 = .finished true := by
  decide

/-- Claim C3, amended: the in-memory lock table is only written after a
successful file claim and is never acquired, so same-process acquirers
are not serialized before touching the filesystem; when one thread
finishes its check-then-create before the other checks, exactly one
succeeds immediately and the other fails its attempt, but when the two
checks interleave before the creates, both same-process threads succeed
immediately — the check-then-create race exists within one process. -/
theorem c3_no_memory_serialization (pid tid0 tid1 : Nat) (now : ℚ) :
    ((runRace pid tid0 tid1 now [0, 0, 1]
        ⟨.beforeCheck, .beforeCheck, none⟩).pc0 = .finished true ∧
     (runRace pid tid0 tid1 now [0, 0, 1]
        ⟨.beforeCheck, .beforeCheck, none⟩).pc1 = .finished false) ∧
    ((runRace pid tid0 tid1 now [0, 1, 0, 1]
        ⟨.beforeCheck, .beforeCheck, none⟩).pc0 = .finished true ∧
     (runRace pid tid0 tid1 now [0, 1, 0, 1]
        ⟨.beforeCheck, .beforeCheck, none⟩).pc1 = .finished true) := by
  have hfresh : APILock.is_lock_expired
      (some (.record ⟨pid, tid0, now⟩)) now = false := by
    simp [APILock.is_lock_expired, APILock.default_timeout]
  refine ⟨⟨?_, ?_⟩, ?_, ?_⟩ <;>
    simp [runRace, raceStep, acqStep, hfresh]

/-- Claim C2: the 30-minute cooldown does not hold up a second fetch.
A successful refresh at time 0 returns True having fetched; at time 301,
still inside the 30-minute window, the cooldown check reads the cache
through get with the 300 s default ttl, which reports it absent and
deletes the stale cache file, so update_usage fetches again instead of
returning the stale value. -/
theorem c2_second_fetch_in_window :
    (UsageUpdater.update_usage ⟨none, none, 0⟩ 0 (some 5)).1 = true ∧
    (UsageUpdater.update_usage ⟨none, none, 0⟩ 0 (some 5)).2.1 = true ∧
    (301 : ℚ) - 0 < COOLDOWN_MINUTES * 60 ∧
    (UsageUpdater.is_cooldown_active
        (UsageUpdater.update_usage ⟨none, none, 0⟩ 0 (some 5)).2.2
        301).1 = false ∧
    (UsageUpdater.is_cooldown_active
        (UsageUpdater.update_usage ⟨none, none, 0⟩ 0 (some 5)).2.2
        301).2.cacheFile = none ∧
    (UsageUpdater.update_usage
        (UsageUpdater.update_usage ⟨none, none, 0⟩ 0 (some 5)).2.2
        301 (some 6)).2.1 = true := by
  have e1 : UsageUpdater.update_usage ⟨none, none, 0⟩ 0 (some 5) =
      (true, true, ⟨none, some (.record ⟨some 5, 0, 300⟩), 0⟩) := by
    simp [UsageUpdater.update_usage, UsageUpdater.is_lock_valid,
      UsageUpdater.is_cooldown_active, CacheManager.get, safe_json_read]
  have h300 : effectiveTTL none = (300 : ℚ) := rfl
  have hlt : (300 : ℚ) < 301 := by norm_num
  have e2 : UsageUpdater.is_cooldown_active
      (⟨none, some (.record ⟨some 5, 0, 300⟩), 0⟩ : UsageState) 301 =
      (false, ⟨none, none, 0⟩) := by
    simp [UsageUpdater.is_cooldown_active, CacheManager.get,
      safe_json_read, h300, hlt]
  have e3 : UsageUpdater.update_usage
      (⟨none, some (.record ⟨some 5, 0, 300⟩), 0⟩ : UsageState) 301
      (some 6) =
      (true, true, ⟨none, some (.record ⟨some 6, 301, 300⟩), 301⟩) := by
    simp [UsageUpdater.update_usage, UsageUpdater.is_lock_valid, e2]
  rw [e1]
  refine ⟨rfl, rfl, ?_, ?_, ?_, ?_⟩
  · unfold COOLDOWN_MINUTES; norm_num
  · rw [e2]
  · rw [e2]
  · rw [e3]

/-- Claim C8: start refuses, changing nothing, while a live daemon handle
exists; a first start from a state with no live handle succeeds and
persists the own pid; a second start then returns False; stop removes the
handle; and a third start succeeds again. -/
theorem c8_singleton_daemon (alive : Nat → Bool) (selfPid : Nat)
    (s0 s : DaemonState) (halive : alive selfPid = true)
    (h0 : BackgroundTaskManager.is_running alive s0 = false)
    (hs : BackgroundTaskManager.is_running alive s = true) :
    BackgroundTaskManager.start alive selfPid s = (false, s) ∧
    (let r1 := BackgroundTaskManager.start alive selfPid s0
     let r2 := BackgroundTaskManager.start alive selfPid r1.2
     let s2 := BackgroundTaskManager.stop r2.2
     let r3 := BackgroundTaskManager.start alive selfPid s2
     r1.1 = true ∧ r1.2.pidFile = some selfPid ∧
     r2 = (false, r1.2) ∧ s2.pidFile = none ∧ r3.1 = true) := by
  have e1 : BackgroundTaskManager.start alive selfPid s0 =
      (true, ⟨some selfPid, true⟩) := by
    simp [BackgroundTaskManager.start, h0]
  have e2 : BackgroundTaskManager.start alive selfPid
      (⟨some selfPid, true⟩ : DaemonState) =
      (false, ⟨some selfPid, true⟩) := by
    simp [BackgroundTaskManager.start, BackgroundTaskManager.is_running,
      halive]
  have e3 : BackgroundTaskManager.stop (⟨some selfPid, true⟩ : DaemonState) =
      (⟨none, false⟩ : DaemonState) := by
    simp [BackgroundTaskManager.stop]
  have e4 : BackgroundTaskManager.start alive selfPid
      (⟨none, false⟩ : DaemonState) = (true, ⟨some selfPid, true⟩) := by
    simp [BackgroundTaskManager.start, BackgroundTaskManager.is_running]
  refine ⟨by simp [BackgroundTaskManager.start, hs], ?_⟩
  simp [e1, e2, e3, e4]

/-- Claim C8, witness: the singleton sequence evaluated with pid 7 as the
only live process, starting from an empty state, with the refused start
evaluated against a state holding the live handle. -/
theorem c8_witness :
    BackgroundTaskManager.start (fun p => p == 7) 7 ⟨some 7, true⟩ =
      (false, ⟨some 7, true⟩) ∧
    (let r1 := BackgroundTaskManager.start (fun p => p == 7) 7 ⟨none, false⟩
     let r2 := BackgroundTaskManager.start (fun p => p == 7) 7 r1.2
     let s2 := BackgroundTaskManager.stop r2.2
     let r3 := BackgroundTaskManager.start (fun p => p == 7) 7 s2
     r1.1 = true ∧ r1.2.pidFile = some 7 ∧
     r2 = (false, r1.2) ∧ s2.pidFile = none ∧ r3.1 = true) :=
  c8_singleton_daemon (fun p => p == 7) 7 ⟨none, false⟩ ⟨some 7, true⟩
    rfl rfl rfl

/-- Helper: with task 0 raising on every iteration and task 1 returning
normally, any interleaving runs every scheduled iteration of both loops
(the counters advance by the number of scheduled moves, raising included)
and leaves in each slot the entry of that tasks last iteration. -/
theorem BackgroundTaskManager.runSched_spec (m : String) (d : ℚ) :
    ∀ (sched : List (Fin 2)) (s : TwoTaskState),
      (BackgroundTaskManager.runSched (fun _ => .exn m) (fun _ => .ok d)
          sched s).done0 = s.done0 + sched.count 0 ∧
      (BackgroundTaskManager.runSched (fun _ => .exn m) (fun _ => .ok d)
          sched s).done1 = s.done1 + sched.count 1 ∧
      (BackgroundTaskManager.runSched (fun _ => .exn m) (fun _ => .ok d)
          sched s).st0 =
        (if sched.count 0 = 0 then s.st0
         else some ⟨s.done0 + sched.count 0 - 1, 0, false, some m⟩) ∧
      (BackgroundTaskManager.runSched (fun _ => .exn m) (fun _ => .ok d)
          sched s).st1 =
        (if sched.count 1 = 0 then s.st1
         else some ⟨s.done1 + sched.count 1 - 1, d, true, none⟩) := by
  intro sched
  induction sched with
  | nil => intro s; simp [BackgroundTaskManager.runSched]
  | cons i rest ih =>
      intro s
      have hstep : BackgroundTaskManager.runSched (fun _ => .exn m)
          (fun _ => .ok d) (i :: rest) s =
          BackgroundTaskManager.runSched (fun _ => .exn m) (fun _ => .ok d)
            rest (BackgroundTaskManager.sysStep (fun _ => .exn m)
              (fun _ => .ok d) i s) := rfl
      rw [hstep]
      obtain ⟨h1, h2, h3, h4⟩ := ih (BackgroundTaskManager.sysStep
        (fun _ => .exn m) (fun _ => .ok d) i s)
      fin_cases i
      · refine ⟨?_, ?_, ?_, ?_⟩
        · rw [h1]
          simp [BackgroundTaskManager.sysStep, List.count_cons]
          omega
        · rw [h2]
          simp [BackgroundTaskManager.sysStep, List.count_cons]
        · rw [h3]
          simp only [BackgroundTaskManager.sysStep,
            BackgroundTaskManager.run_task_iter, List.count_cons]
          by_cases hc : rest.count 0 = 0 <;>
            simp [hc, TaskStatus.mk.injEq]
        · rw [h4]
          simp [BackgroundTaskManager.sysStep, List.count_cons]
      · refine ⟨?_, ?_, ?_, ?_⟩
        · rw [h1]
          simp [BackgroundTaskManager.sysStep, List.count_cons]
        · rw [h2]
          simp [BackgroundTaskManager.sysStep, List.count_cons]
          omega
        · rw [h3]
          simp [BackgroundTaskManager.sysStep, List.count_cons]
        · rw [h4]
          simp only [BackgroundTaskManager.sysStep,
            BackgroundTaskManager.run_task_iter, List.count_cons]
          by_cases hc : rest.count 1 = 0 <;>
            simp [hc, TaskStatus.mk.injEq]

/-- Claim C9: when the body of task 0 raises on every iteration, every
scheduled iteration of both loops still runs under any interleaving — the
raising loop completes as many iterations as it is scheduled for, so the
exception never terminates it nor its sibling — and afterwards the slot of
task 0 records success false with the error string while the slot of the
sibling records success true, with its completed count equal to its full
number of scheduled moves. -/
theorem c9_task_isolation (m : String) (d : ℚ) (sched : List (Fin 2))
    (h0 : 0 < sched.count 0) (h1 : 0 < sched.count 1) :
    (BackgroundTaskManager.runSched (fun _ => .exn m) (fun _ => .ok d)
        sched ⟨none, none, 0, 0⟩).done0 = sched.count 0 ∧
    (BackgroundTaskManager.runSched (fun _ => .exn m) (fun _ => .ok d)
        sched ⟨none, none, 0, 0⟩).done1 = sched.count 1 ∧
    (BackgroundTaskManager.runSched (fun _ => .exn m) (fun _ => .ok d)
        sched ⟨none, none, 0, 0⟩).st0 =
      some ⟨sched.count 0 - 1, 0, false, some m⟩ ∧
    (BackgroundTaskManager.runSched (fun _ => .exn m) (fun _ => .ok d)
        sched ⟨none, none, 0, 0⟩).st1 =
      some ⟨sched.count 1 - 1, d, true, none⟩ := by
  obtain ⟨h1', h2', h3', h4'⟩ := BackgroundTaskManager.runSched_spec m d
    sched ⟨none, none, 0, 0⟩
  refine ⟨by simpa using h1', by simpa using h2', ?_, ?_⟩
  · rw [h3', if_neg (by omega)]; simp
  · rw [h4', if_neg (by omega)]; simp

/-- Claim C9, witness: a five-step interleaving of an always-raising task
and a normal sibling, evaluated concretely. -/
theorem c9_witness :
    (0 < ([0, 1, 0, 1, 0] : List (Fin 2)).count 0) ∧
    (BackgroundTaskManager.runSched (fun _ => .exn "boom")
        (fun _ => .ok 1) [0, 1, 0, 1, 0] ⟨none, none, 0, 0⟩).done0 =
      ([0, 1, 0, 1, 0] : List (Fin 2)).count 0 ∧
    (BackgroundTaskManager.runSched (fun _ => .exn "boom")
        (fun _ => .ok 1) [0, 1, 0, 1, 0] ⟨none, none, 0, 0⟩).st0 =
      some ⟨([0, 1, 0, 1, 0] : List (Fin 2)).count 0 - 1, 0, false,
        some "boom"⟩ ∧
    (BackgroundTaskManager.runSched (fun _ => .exn "boom")
        (fun _ => .ok 1) [0, 1, 0, 1, 0] ⟨none, none, 0, 0⟩).st1 =
      some ⟨([0, 1, 0, 1, 0] : List (Fin 2)).count 1 - 1, 1, true, none⟩ :=
  ⟨by decide,
    (c9_task_isolation "boom" 1 [0, 1, 0, 1, 0] (by decide) (by decide)).1,
    (c9_task_isolation "boom" 1 [0, 1, 0, 1, 0] (by decide) (by decide)).2.2.1,
    (c9_task_isolation "boom" 1 [0, 1, 0, 1, 0] (by decide) (by decide)).2.2.2⟩

end CcStatus
